import Mathlib

set_option autoImplicit false

/-!
Verification development for the verwatch repository.

The repository contains two generations of the check-and-dispatch code:
the current per-project monitor actor (`src/backend/src/project/monitor.rs`
with `src/backend/src/utils/github/{gateway,release}.rs` and
`src/backend/src/error.rs`) and the batch runner
(`src/backend/src/service.rs`, whose release type
`GitHubRelease`/`get_comparison_timestamp` is the one defined in
`src/src/lib.rs`).  Both are embedded below: the monitor path in the
`Verwatch` namespace, the batch path in `Verwatch.Batch`.

Machine integers: `DurationSecs` is a `u64` second count; all values that
occur are tiny so it is modelled as `Nat`.  `chrono::DateTime<Utc>` is a
totally ordered instant, modelled as `Int`.  Asynchronous storage is
modelled by explicit state passing; every storage primitive that can only
fail on infrastructure faults is modelled as infallible.  HTTP traffic is
modelled by passing the wire responses in as data.
-/

namespace Verwatch

/-- Instant on the chrono timeline (`DateTime<Utc>`), totally ordered. -/
abbrev Timestamp := Int

-- =========================================================
-- Shared domain model (src/shared/src/lib.rs)
-- =========================================================

/-- Which upstream timestamp field defines freshness (`ComparisonMode`). -/
inductive ComparisonMode
  | publishedAt
  | updatedAt
deriving DecidableEq

/-- Identity fields of a project (`BaseConfig` in src/shared/src/lib.rs). -/
structure BaseConfig where
  upstream_owner : String
  upstream_repo : String
  my_owner : String
  my_repo : String
deriving DecidableEq

/-- Constant `PREFIX_VERSION` from src/shared/src/lib.rs. -/
def PREFIX_VERSION : String := "v:"

/-- Key of the stored release state (`BaseConfig::version_store_key`). -/
def BaseConfig.version_store_key (b : BaseConfig) : String :=
  PREFIX_VERSION ++ b.upstream_owner ++ "/" ++ b.upstream_repo

/-- Derived identity string (`BaseConfig::generate_unique_key`). -/
def BaseConfig.generate_unique_key (b : BaseConfig) : String :=
  b.upstream_owner ++ "/" ++ b.upstream_repo ++ "->" ++ b.my_owner ++ "/" ++ b.my_repo

/-- Check cadence (`TimeConfig`); `DurationSecs` values carried as seconds. -/
structure TimeConfig where
  check_interval : Nat
  retry_interval : Nat
deriving DecidableEq

/-- Admin request creating or updating a project (`CreateProjectRequest`). -/
structure CreateProjectRequest where
  base_config : BaseConfig
  time_config : TimeConfig
  initial_delay : Nat
  dispatch_token_secret : Option String
  comparison_mode : ComparisonMode
deriving DecidableEq

/-- Run state of a monitor (`MonitorState`). -/
inductive MonitorState
  | paused
  | running (next_check_at : Timestamp)
deriving DecidableEq

/-- Mirror of `MonitorState::is_paused`. -/
def MonitorState.is_paused : MonitorState → Bool
  | .paused => true
  | .running _ => false

/-- Mirror of `MonitorState::running`. -/
def MonitorState.mk_running (next_check_at : Timestamp) : MonitorState :=
  MonitorState.running next_check_at

/-- Stored project record (`ProjectConfig` in src/shared/src/lib.rs). -/
structure ProjectConfig where
  unique_key : String
  state : MonitorState
  request : CreateProjectRequest
deriving DecidableEq

/-- Mirror of `ProjectConfig::new`: paused initially, key derived. -/
def ProjectConfig.new (request : CreateProjectRequest) : ProjectConfig :=
  { unique_key := request.base_config.generate_unique_key
    state := MonitorState.paused
    request := request }

/-- Mirror of `ProjectConfig::generate_unique_key`. -/
def ProjectConfig.generate_unique_key (c : ProjectConfig) : String :=
  c.request.base_config.generate_unique_key

/-- Mirror of `ProjectConfig::version_store_key`. -/
def ProjectConfig.version_store_key (c : ProjectConfig) : String :=
  c.request.base_config.version_store_key

-- =========================================================
-- Error model (src/backend/src/error.rs)
-- =========================================================

/-- Error classification (`WatchErrorStatus`). -/
inductive WatchErrorStatus
  | storeStatus
  | notFound
  | invalidInput
  | unauthorized
  | serialization
  | externalApi
  | conflict
deriving DecidableEq

/-- Mirror of `WatchErrorStatus::status_code`. -/
def WatchErrorStatus.status_code : WatchErrorStatus → Nat
  | .invalidInput | .serialization => 400
  | .unauthorized => 401
  | .notFound => 404
  | .conflict => 409
  | .storeStatus => 500
  | .externalApi => 502

/-- Mirror of `WatchErrorStatus::error_code`. -/
def WatchErrorStatus.error_code : WatchErrorStatus → String
  | .invalidInput => "INVALID_INPUT"
  | .serialization => "JSON_PARSE_ERROR"
  | .unauthorized => "UNAUTHORIZED"
  | .notFound => "RESOURCE_NOT_FOUND"
  | .conflict => "RESOURCE_CONFLICT"
  | .storeStatus => "INTERNAL_STORE_ERROR"
  | .externalApi => "UPSTREAM_ERROR"

/-- One breadcrumb of the error trace (`ErrorSpan`). -/
structure ErrorSpan where
  operation : String
  detail : Option String
deriving DecidableEq

/-- Domain error (`WatchError`; the monitor sources alias it `AppError`).
The non-serializable `source` field carries no behaviour and is omitted. -/
structure WatchError where
  status : WatchErrorStatus
  message : String
  spans : List ErrorSpan
deriving DecidableEq

/-- Mirror of `WatchError::new`. -/
def WatchError.mk_new (status : WatchErrorStatus) (message : String) : WatchError :=
  { status := status, message := message, spans := [] }

/-- Mirror of `WatchError::store`. -/
def WatchError.store_err (message : String) : WatchError :=
  WatchError.mk_new .storeStatus message

/-- Mirror of `WatchError::not_found`. -/
def WatchError.not_found (message : String) : WatchError :=
  WatchError.mk_new .notFound message

/-- Mirror of `WatchError::invalid_input`. -/
def WatchError.invalid_input (message : String) : WatchError :=
  WatchError.mk_new .invalidInput message

/-- Mirror of `WatchError::external_api`. -/
def WatchError.external_api (message : String) : WatchError :=
  WatchError.mk_new .externalApi message

/-- Mirror of `WatchError::conflict`. -/
def WatchError.conflict (message : String) : WatchError :=
  WatchError.mk_new .conflict message

/-- Mirror of `WatchError::in_op`: push a breadcrumb. -/
def WatchError.in_op (e : WatchError) (operation : String) : WatchError :=
  { e with spans := e.spans ++ [{ operation := operation, detail := none }] }

/-- Mirror of `WatchError::in_op_with`: push a breadcrumb with detail. -/
def WatchError.in_op_with (e : WatchError) (operation detail : String) : WatchError :=
  { e with spans := e.spans ++ [{ operation := operation, detail := some detail }] }

/-- Rendering of one span inside `Display for WatchError`. -/
def ErrorSpan.render (s : ErrorSpan) : String :=
  s.operation ++ (match s.detail with
    | some d => "(" ++ d ++ ")"
    | none => "")

/-- Mirror of `Display for WatchError`. -/
def WatchError.display (e : WatchError) : String :=
  let base := "[" ++ e.status.error_code ++ "] " ++ e.message
  match e.spans with
  | [] => base
  | spans => base ++ " | trace: " ++ String.intercalate " -> " (spans.map ErrorSpan.render)

-- =========================================================
-- Release model (src/backend/src/utils/github/release.rs)
-- =========================================================

/-- Mode-tagged release timestamp (`ReleaseTimestamp`). -/
inductive ReleaseTimestamp
  | published (t : Timestamp)
  | updated (t : Timestamp)
deriving DecidableEq

/-- Fetched release fingerprint (`GitHubRelease` in release.rs). -/
structure GitHubRelease where
  tag_name : String
  timestamp : ReleaseTimestamp
deriving DecidableEq

/-- Underlying instant of a mode-tagged timestamp (projection used to state
properties; the source reads it through pattern matching). -/
def ReleaseTimestamp.instant : ReleaseTimestamp → Timestamp
  | .published t => t
  | .updated t => t

/-- Whether two mode-tagged timestamps carry the same mode tag (used to state
properties; the source distinguishes the cases by pattern matching). -/
def ReleaseTimestamp.sameMode : ReleaseTimestamp → ReleaseTimestamp → Bool
  | .published _, .published _ => true
  | .updated _, .updated _ => true
  | _, _ => false

/-- Mirror of `GitHubRelease::is_newer_than`: same-mode timestamps compare by
strict order, a mode mismatch is an `InvalidInput` error. -/
def GitHubRelease.is_newer_than (self current : GitHubRelease) :
    Except WatchError Bool :=
  match self.timestamp, current.timestamp with
  | .published t_new, .published t_old => .ok (decide (t_old < t_new))
  | .updated t_new, .updated t_old => .ok (decide (t_old < t_new))
  | _, _ =>
      .error ((WatchError.invalid_input "Comparison mode mismatch").in_op "release.compare")

-- =========================================================
-- Release gateway (src/backend/src/utils/github/gateway.rs)
-- =========================================================

/-- State of one JSON timestamp field as the gateway parser sees it:
absent (or not a string), present but not RFC3339, or parsed. -/
inductive JsonTime
  | missing
  | invalid
  | val (t : Timestamp)
deriving DecidableEq

/-- Parsed shape of the releases-latest response body consumed by
`GitHubGateway::fetch_latest_release`. -/
structure ReleaseJson where
  tag_name : Option String
  published_at : JsonTime
  updated_at : JsonTime
deriving DecidableEq

/-- The field of the body selected by the comparison mode (the source
selects it by matching on `self.mode`). -/
def ReleaseJson.timeField (b : ReleaseJson) : ComparisonMode → JsonTime
  | .publishedAt => b.published_at
  | .updatedAt => b.updated_at

/-- Wire response to the releases-latest GET, already JSON-decoded. -/
structure FetchResponse where
  status : Nat
  body : ReleaseJson
deriving DecidableEq

/-- Mirror of `GitHubGateway::fetch_latest_release`.  The HTTP exchange is
passed in as `resp` (`.error` is a transport failure of `client.send`).
The global read token only decorates the outgoing Authorization header and
is not tracked.  Non-200 status, a missing `tag_name`, a missing mode
field and an unparsable mode field each produce the `ExternalApi` error the
source builds at that point. -/
def GitHubGateway.fetch_latest_release (mode : ComparisonMode) (repo_path : String)
    (resp : Except WatchError FetchResponse) : Except WatchError GitHubRelease :=
  match resp with
  | .error e => .error (e.in_op_with "github.fetch" repo_path)
  | .ok r =>
      if r.status ≠ 200 then
        .error ((WatchError.external_api
          ("Upstream API Error " ++ toString r.status)).in_op_with "github.fetch" repo_path)
      else
        match r.body.tag_name with
        | none =>
            .error ((WatchError.external_api
              ("Missing \x27tag_name\x27 in response")).in_op_with "github.parse.tag" repo_path)
        | some tag =>
            match mode with
            | .publishedAt =>
                match r.body.published_at with
                | .missing =>
                    .error ((WatchError.external_api
                      ("Missing \x27published_at\x27 field required by config")).in_op_with
                        "github.parse.published_at" repo_path)
                | .invalid =>
                    .error ((WatchError.external_api
                      "Invalid time format").in_op_with "github.parse.time" repo_path)
                | .val t => .ok { tag_name := tag, timestamp := ReleaseTimestamp.published t }
            | .updatedAt =>
                match r.body.updated_at with
                | .missing =>
                    .error ((WatchError.external_api
                      ("Missing \x27updated_at\x27 field required by config")).in_op_with
                        "github.parse.updated_at" repo_path)
                | .invalid =>
                    .error ((WatchError.external_api
                      "Invalid time format").in_op_with "github.parse.time" repo_path)
                | .val t => .ok { tag_name := tag, timestamp := ReleaseTimestamp.updated t }

/-- Mirror of `DispatchEvent::send`: the POST exchange is passed in as
`resp` (an `.ok` carries the response status); anything but 204 is an
`ExternalApi` error. -/
def DispatchEvent.send (owner_repo : String) (resp : Except WatchError Nat) :
    Except WatchError Unit :=
  match resp with
  | .error e => .error (e.in_op_with "github.dispatch.send" owner_repo)
  | .ok status =>
      if status ≠ 204 then
        .error ((WatchError.external_api
          ("Dispatch failed with status: " ++ toString status)).in_op_with
            "github.dispatch" owner_repo)
      else .ok ()

-- =========================================================
-- Monitor actor (src/backend/src/project/monitor.rs)
-- =========================================================

/-- Environment adapter (`EnvAdapter`): `var` and `secret` lookups. -/
structure Env where
  vars : String → Option String
  secrets : String → Option String

/-- Durable state owned by one monitor actor: the values at the storage
keys `config` and `current_version`, and the pending single-shot alarm
(delay in milliseconds, `none` = no alarm). -/
structure MonitorStore where
  config : Option ProjectConfig
  version : Option GitHubRelease
  alarm : Option Nat

/-- One outbound repository-dispatch POST as issued by the flow. -/
structure DispatchCall where
  owner : String
  repo : String
  token : String
  event_type : String
  tag : String
deriving DecidableEq

/-- HTTP exchanges available to one run of `perform_check_flow`: the result
of the releases-latest GET and of the dispatch POST. -/
structure CheckWire where
  fetch_response : Except WatchError FetchResponse
  dispatch_response : Except WatchError Nat

/-- Result of one monitor operation: the returned `Result`, the post state,
and the dispatch calls issued on the way. -/
structure CheckOutcome where
  result : Except WatchError Unit
  store : MonitorStore
  dispatch_calls : List DispatchCall

/-- Decision taken at step B and C of `perform_check_flow`: with no stored
release the flow proceeds; with a stored one it proceeds unless
`is_newer_than` answers `Ok(false)` (an `Err`, the mode mismatch, falls
through and proceeds). -/
def proceedsPastComparison (remote : GitHubRelease) (localState : Option GitHubRelease) :
    Bool :=
  match localState with
  | none => true
  | some local_release =>
      match remote.is_newer_than local_release with
      | .ok b => b
      | .error _ => true

/-- Step A of `perform_check_flow`: the gateway fetch at the upstream
`repo_path`, with the project's comparison mode injected. -/
def monitorFetch (io : CheckWire) (config : ProjectConfig) :
    Except WatchError GitHubRelease :=
  GitHubGateway.fetch_latest_release config.request.comparison_mode
    (config.request.base_config.upstream_owner ++ "/" ++
      config.request.base_config.upstream_repo)
    io.fetch_response

/-- The `pat_key` computed at step D of `perform_check_flow`: the project's
named secret, or the name held in the `PAT_TOKEN_NAME` var (default
`MY_GITHUB_PAT`). -/
def monitorPatKey (env : Env) (config : ProjectConfig) : String :=
  let default_pat_name := (env.vars "PAT_TOKEN_NAME").getD "MY_GITHUB_PAT"
  config.request.dispatch_token_secret.getD default_pat_name

/-- Mirror of `ProjectMonitorLogicTestable::perform_check_flow`.  Storage
reads and writes are explicit state passing; the gateway exchanges come in
through `io`.  Gateway errors are re-wrapped with `AppError::store`, a
named-but-unresolvable dispatch secret is the `Secret missing` store
error, and the new release is persisted only after a successful dispatch. -/
def perform_check_flow (env : Env) (io : CheckWire) (store : MonitorStore)
    (config : ProjectConfig) : CheckOutcome :=
  let github_token_name := (env.vars "GITHUB_TOKEN_NAME").getD "GITHUB_TOKEN"
  let _global_token := env.secrets github_token_name
  match monitorFetch io config with
  | .error e =>
      { result := .error (WatchError.store_err ("GitHub API: " ++ e.display))
        store := store, dispatch_calls := [] }
  | .ok remote_release =>
      if proceedsPastComparison remote_release store.version then
        let pat_key := monitorPatKey env config
        match env.secrets pat_key with
        | none =>
            { result := .error (WatchError.store_err
                ("Secret \x27" ++ pat_key ++ "\x27 missing"))
              store := store, dispatch_calls := [] }
        | some pat =>
            let call : DispatchCall :=
              { owner := config.request.base_config.my_owner
                repo := config.request.base_config.my_repo
                token := pat, event_type := "upstream_update"
                tag := remote_release.tag_name }
            let owner_repo :=
              config.request.base_config.my_owner ++ "/" ++ config.request.base_config.my_repo
            match DispatchEvent.send owner_repo io.dispatch_response with
            | .error e =>
                { result := .error (WatchError.store_err ("Dispatch: " ++ e.display))
                  store := store, dispatch_calls := [call] }
            | .ok _ =>
                { result := .ok ()
                  store := { store with version := some remote_release }
                  dispatch_calls := [call] }
      else
        { result := .ok (), store := store, dispatch_calls := [] }

/-- Mirror of `ProjectMonitorLogicTestable::on_alarm` (`now` is the value
of `Utc::now()` at step 5; intervals are seconds, the alarm delay is kept
in milliseconds as `DurationSecs::as_millis` produces it).  With no stored
config, or while paused, the alarm is deleted and the call succeeds;
otherwise the check flow runs and exactly one new alarm is scheduled, at
`check_interval` on success and `retry_interval` on failure, with the
matching `next_check_at` persisted. -/
def on_alarm (env : Env) (io : CheckWire) (now : Timestamp) (store : MonitorStore) :
    CheckOutcome :=
  match store.config with
  | none =>
      { result := .ok (), store := { store with alarm := none }, dispatch_calls := [] }
  | some config =>
      if config.state.is_paused then
        { result := .ok (), store := { store with alarm := none }, dispatch_calls := [] }
      else
        let checked := perform_check_flow env io store config
        let next_interval :=
          match checked.result with
          | .ok _ => config.request.time_config.check_interval
          | .error _ => config.request.time_config.retry_interval
        let next_check_at : Timestamp := now + Int.ofNat next_interval
        let config2 := { config with state := MonitorState.mk_running next_check_at }
        { result := .ok ()
          store := { checked.store with
                      config := some config2
                      alarm := some (next_interval * 1000) }
          dispatch_calls := checked.dispatch_calls }

/-- Mirror of `ProjectMonitorLogicTestable::trigger`: with no stored config
a `NotFound` error, otherwise the check flow. -/
def trigger (env : Env) (io : CheckWire) (store : MonitorStore) : CheckOutcome :=
  match store.config with
  | some cfg => perform_check_flow env io store cfg
  | none =>
      { result := .error (WatchError.not_found "No config found")
        store := store, dispatch_calls := [] }

-- =========================================================
-- Registry coordinator (src/backend/src/repository/registry.rs)
-- =========================================================

/-- Mirror of the collection step of `ProjectRegistryLogic::list`: one
`GetConfig` call per registered key, keeping `Ok(Some(config))` results
and dropping per-key failures and `Ok(None)` (`filter_map(|r| r.ok().flatten())`).
The fan-out is concurrent but each call is independent, so the collected
list is the order-preserving filter of the per-key results. -/
def ProjectRegistryLogic.list (keys : List String)
    (get_config : String → Except WatchError (Option ProjectConfig)) :
    List ProjectConfig :=
  (keys.map get_config).filterMap (fun r =>
    match r with
    | .ok (some c) => some c
    | .ok none => none
    | .error _ => none)

-- =========================================================
-- HTTP client retry loop (src/backend/src/utils/request.rs)
-- =========================================================

/-- Constant `RATE_LIMIT_WAIT_SECONDS`. -/
def RATE_LIMIT_WAIT_SECONDS : Nat := 120

/-- Constant `MAX_RETRIES` inside `WorkerHttpClient::send`. -/
def MAX_RETRIES : Nat := 1

/-- One wire response as `WorkerHttpClient::send` inspects it: the status
code, the `X-RateLimit-Remaining` header if present, and the body text. -/
structure WireResponse where
  status : Nat
  rate_limit_remaining : Option String
  body : String
deriving DecidableEq

/-- Loop body of `WorkerHttpClient::send`, recursing on the remaining retry
budget `MAX_RETRIES - retry_count`.  `responses n` is the wire response to
the `n`-th attempt.  Returns (attempts made, seconds waited, final
response).  When the budget is exhausted the 403 rate-limit test is
short-circuited away and the response is returned as-is. -/
def send_aux (responses : Nat → WireResponse) : Nat → Nat → Nat × Nat × WireResponse
  | 0, attempt => (attempt + 1, 0, responses attempt)
  | budget + 1, attempt =>
      let resp := responses attempt
      if resp.status = 403 ∧ resp.rate_limit_remaining = some "0" then
        let rest := send_aux responses budget (attempt + 1)
        (rest.1, RATE_LIMIT_WAIT_SECONDS + rest.2.1, rest.2.2)
      else
        (attempt + 1, 0, resp)

/-- Mirror of `WorkerHttpClient::send`: the loop starts with
`retry_count = 0`, so the budget is `MAX_RETRIES`. -/
def WorkerHttpClient.send (responses : Nat → WireResponse) : Nat × Nat × WireResponse :=
  send_aux responses MAX_RETRIES 0

-- =========================================================
-- Admin logic (src/backend/src/logic.rs)
-- =========================================================

/-- Executable model of Rust `str::trim`: drop whitespace from both ends
(defined on the character list so that it evaluates in the kernel). -/
def strTrim (s : String) : String :=
  String.mk (((s.data.dropWhile Char.isWhitespace).reverse.dropWhile
    Char.isWhitespace).reverse)

/-- Mirror of `AdminLogic::create_project`, with the registry abstracted to
its membership predicate: validation rejects an (after trim) empty
upstream repo, an already-registered unique key is a conflict, otherwise
the config built by `ProjectConfig::new` is registered and returned. -/
def AdminLogic.create_project (registered : String → Bool)
    (req : CreateProjectRequest) : Except WatchError ProjectConfig :=
  if ((strTrim req.base_config.upstream_repo).isEmpty : Bool) then
    .error ((WatchError.invalid_input
      "Upstream repo cannot be empty").in_op "admin.create.validate")
  else
    let config := ProjectConfig.new req
    if registered config.unique_key then
      .error ((WatchError.conflict
        ("Project \x27" ++ config.unique_key ++ "\x27 already exists")).in_op "admin.create")
    else
      .ok config

-- =========================================================
-- Batch runner (src/backend/src/service.rs; release type from src/src/lib.rs)
-- =========================================================

namespace Batch

/-- Per-project identity and policy of the batch-runner generation
(`BaseProjectConfig` in src/src/lib.rs, the `base` field consumed by
`WatchdogService::check_project`). -/
structure BaseProjectConfig where
  upstream_owner : String
  upstream_repo : String
  my_owner : String
  my_repo : String
  dispatch_token_secret : Option String
  comparison_mode : Verwatch.ComparisonMode
deriving DecidableEq

/-- Stored project of the batch-runner generation: derived key, identity
fields, and the paused flag consulted by `run_all`. -/
structure ProjectConfig where
  unique_key : String
  base : BaseProjectConfig
  paused : Bool
deriving DecidableEq

/-- Mirror of the batch generation `version_store_key`. -/
def ProjectConfig.version_store_key (c : ProjectConfig) : String :=
  Verwatch.PREFIX_VERSION ++ c.base.upstream_owner ++ "/" ++ c.base.upstream_repo

/-- Release shape of the batch generation (`GitHubRelease` in
src/src/lib.rs): optional raw timestamp strings. -/
structure GitHubRelease where
  tag_name : String
  published_at : Option String
  updated_at : Option String
deriving DecidableEq

/-- Mirror of `GitHubRelease::get_comparison_timestamp`. -/
def GitHubRelease.get_comparison_timestamp (r : GitHubRelease) :
    Verwatch.ComparisonMode → Option String
  | .publishedAt => r.published_at
  | .updatedAt => r.updated_at

/-- One dispatch POST issued by the batch path. -/
structure DispatchCall where
  owner : String
  repo : String
  token : String
  version : String
deriving DecidableEq

/-- HTTP exchanges available to one `check_project` run: the outcome of
`gateway.fetch_latest_release` and of `gateway.trigger_dispatch` (errors
are the `worker::Error` strings of that generation). -/
structure CheckWire where
  fetch_response : Except String GitHubRelease
  dispatch_response : Except String Unit

/-- Keyed version-state store behind `get_version_state`/`set_version_state`. -/
structure RepoState where
  version_state : String → Option String

/-- Result of one `check_project` run: the returned status string (or
error), the post repository state, and the dispatch calls issued. -/
structure Outcome where
  result : Except String String
  repo : RepoState
  dispatch_calls : List DispatchCall

/-- Mirror of `WatchdogService::check_project`.  A missing comparison
timestamp is the successful `Skipped` no-op; an unchanged stored timestamp
is the successful `No change` no-op; the dispatch token is the resolved
named secret, falling back to the global dispatch token when the name does
not resolve or no name is given; the version state is rewritten only after
a successful dispatch. -/
def check_project (resolver : String → Option String) (global_dispatch_token : String)
    (io : CheckWire) (repo : RepoState) (config : ProjectConfig) : Outcome :=
  match io.fetch_response with
  | .error e => { result := .error e, repo := repo, dispatch_calls := [] }
  | .ok release =>
      match release.get_comparison_timestamp config.base.comparison_mode with
      | none =>
          { result := .ok ("Skipped " ++ config.base.upstream_owner ++ "/" ++
              config.base.upstream_repo ++ " (No timestamp)")
            repo := repo, dispatch_calls := [] }
      | some remote_time =>
          let local_time := repo.version_state config.version_store_key
          if local_time = some remote_time then
            { result := .ok ("No change for " ++ config.base.upstream_owner ++ "/" ++
                config.base.upstream_repo)
              repo := repo, dispatch_calls := [] }
          else
            let token :=
              match config.base.dispatch_token_secret with
              | some secret_name =>
                  match resolver secret_name with
                  | some t => t
                  | none => global_dispatch_token
              | none => global_dispatch_token
            let call : DispatchCall :=
              { owner := config.base.my_owner, repo := config.base.my_repo
                token := token, version := release.tag_name }
            match io.dispatch_response with
            | .error e => { result := .error e, repo := repo, dispatch_calls := [call] }
            | .ok _ =>
                { result := .ok ("Updated " ++ config.base.upstream_owner ++ "/" ++
                    config.base.upstream_repo ++ " to " ++ release.tag_name)
                  repo := { version_state := fun k =>
                              if k = config.version_store_key then some remote_time
                              else repo.version_state k }
                  dispatch_calls := [call] }

end Batch

-- =========================================================
-- Concrete inputs used by witnesses and counterexamples
-- =========================================================

/-- Concrete identity fields for sample runs. -/
def baseW : BaseConfig :=
  { upstream_owner := "owner", upstream_repo := "repo"
    my_owner := "my_owner", my_repo := "my_repo" }

/-- Concrete cadence: one hour check interval, ten second retry. -/
def timeW : TimeConfig := { check_interval := 3600, retry_interval := 10 }

/-- Concrete request with no named dispatch secret. -/
def reqW : CreateProjectRequest :=
  { base_config := baseW, time_config := timeW, initial_delay := 60
    dispatch_token_secret := none, comparison_mode := ComparisonMode.publishedAt }

/-- Concrete running project with no named dispatch secret. -/
def cfgW : ProjectConfig :=
  { unique_key := baseW.generate_unique_key
    state := MonitorState.running 0, request := reqW }

/-- Concrete running project naming the dispatch secret `CUSTOM`. -/
def cfgSecretW : ProjectConfig :=
  { cfgW with request := { reqW with dispatch_token_secret := some "CUSTOM" } }

/-- Environment holding only the global PAT under its default name. -/
def envW : Env :=
  { vars := fun _ => none
    secrets := fun k => if k = "MY_GITHUB_PAT" then some "global_pat" else none }

/-- Release body carrying both timestamps and tag `v2`. -/
def goodBody : ReleaseJson :=
  { tag_name := some "v2", published_at := JsonTime.val 200
    updated_at := JsonTime.val 300 }

/-- Release body whose `published_at` field is absent. -/
def noPublishedBody : ReleaseJson :=
  { tag_name := some "v2", published_at := JsonTime.missing
    updated_at := JsonTime.val 300 }

/-- Wire exchanges: successful fetch of `goodBody`, dispatch accepted. -/
def ioOkW : CheckWire :=
  { fetch_response := Except.ok { status := 200, body := goodBody }
    dispatch_response := Except.ok 204 }

/-- Wire exchanges: fetch rejected with HTTP 404. -/
def io404W : CheckWire :=
  { fetch_response := Except.ok { status := 404, body := goodBody }
    dispatch_response := Except.ok 204 }

/-- Wire exchanges: 200 fetch of a release missing `published_at`. -/
def ioMissingW : CheckWire :=
  { fetch_response := Except.ok { status := 200, body := noPublishedBody }
    dispatch_response := Except.ok 204 }

/-- Wire exchanges: successful fetch but dispatch rejected with 500. -/
def ioBadDispatchW : CheckWire :=
  { fetch_response := Except.ok { status := 200, body := goodBody }
    dispatch_response := Except.ok 500 }

/-- Monitor state: running config stored, no fingerprint, stale alarm. -/
def storeNoVersionW : MonitorStore :=
  { config := some cfgW, version := none, alarm := some 1000 }

/-- Monitor state as `storeNoVersionW` but for the named-secret project. -/
def storeSecretW : MonitorStore :=
  { config := some cfgSecretW, version := none, alarm := some 1000 }

/-- Monitor state holding a same-mode fingerprint at instant 100. -/
def storeOldVersionW : MonitorStore :=
  { config := some cfgW
    version := some { tag_name := "v1", timestamp := ReleaseTimestamp.published 100 }
    alarm := some 1000 }

/-- Monitor state holding an other-mode (updated) fingerprint. -/
def storeMismatchW : MonitorStore :=
  { config := some cfgW
    version := some { tag_name := "v1", timestamp := ReleaseTimestamp.updated 100 }
    alarm := some 1000 }

/-- Batch config naming dispatch secret `CUSTOM`, published-at mode. -/
def bcfgW : Batch.ProjectConfig :=
  { unique_key := "owner/repo->my_owner/my_repo"
    base := { upstream_owner := "owner", upstream_repo := "repo"
              my_owner := "my_owner", my_repo := "my_repo"
              dispatch_token_secret := some "CUSTOM"
              comparison_mode := ComparisonMode.publishedAt }
    paused := false }

/-- Batch release tagged `v2`, published 2023-01-01. -/
def brelW : Batch.GitHubRelease :=
  { tag_name := "v2", published_at := some "2023-01-01T00:00:00Z"
    updated_at := none }

/-- Batch wire exchanges: fetch succeeds with `brelW`, dispatch accepted. -/
def bioW : Batch.CheckWire :=
  { fetch_response := Except.ok brelW, dispatch_response := Except.ok () }

/-- Batch store holding the strictly newer stored timestamp 2023-02-01
under the sample project's version key. -/
def brepoNewerW : Batch.RepoState :=
  { version_state := fun k =>
      if k = "v:owner/repo" then some "2023-02-01T00:00:00Z" else none }

/-- Batch store with no stored timestamp. -/
def brepoEmptyW : Batch.RepoState := { version_state := fun _ => none }

/-- Resolver that knows no secrets. -/
def bresolverNoneW : String → Option String := fun _ => none

/-- Monitor state holding a same-mode fingerprint at instant 300 (newer
than the sample fetch's 200). -/
def storeNewerVersionW : MonitorStore :=
  { config := some cfgW
    version := some { tag_name := "v3", timestamp := ReleaseTimestamp.published 300 }
    alarm := some 1000 }

/-- Batch store holding exactly the remote timestamp (unchanged). -/
def brepoSameW : Batch.RepoState :=
  { version_state := fun k =>
      if k = "v:owner/repo" then some "2023-01-01T00:00:00Z" else none }

/-- Batch release with no timestamp fields at all. -/
def brelNoTsW : Batch.GitHubRelease :=
  { tag_name := "v2", published_at := none, updated_at := none }

/-- Batch wire exchanges fetching `brelNoTsW`. -/
def bioNoTsW : Batch.CheckWire :=
  { fetch_response := Except.ok brelNoTsW, dispatch_response := Except.ok () }

/-- Wire responses: first attempt rate-limited 403, second attempt 200. -/
def respSeqW : Nat → WireResponse := fun n =>
  if n = 0 then { status := 403, rate_limit_remaining := some "0", body := "limited" }
  else { status := 200, rate_limit_remaining := none, body := "ok" }

/-- Per-key `GetConfig` results for the registry sample: key `k2` fails,
every other key answers with the sample config. -/
def getConfigW : String → Except WatchError (Option ProjectConfig) := fun k =>
  if k = "k2" then .error (WatchError.store_err "unreachable actor")
  else .ok (some cfgW)

-- =========================================================
-- Helper lemmas shared between claims
-- =========================================================

/-- Same-mode comparison is the strict order on the carried instants. -/
theorem is_newer_than_sameMode (a b : GitHubRelease)
    (h : a.timestamp.sameMode b.timestamp = true) :
    a.is_newer_than b = .ok (decide (b.timestamp.instant < a.timestamp.instant)) := by
  rcases a with ⟨ta, sa⟩
  rcases b with ⟨tb, sb⟩
  cases sa <;> cases sb <;>
    simp_all [ReleaseTimestamp.sameMode, GitHubRelease.is_newer_than,
      ReleaseTimestamp.instant]

/-- Mode-mismatched comparison is the `InvalidInput` error. -/
theorem is_newer_than_modeMismatch (a b : GitHubRelease)
    (h : a.timestamp.sameMode b.timestamp = false) :
    ∃ e, a.is_newer_than b = .error e ∧ e.status = WatchErrorStatus.invalidInput := by
  rcases a with ⟨ta, sa⟩
  rcases b with ⟨tb, sb⟩
  cases sa <;> cases sb <;>
    simp_all [ReleaseTimestamp.sameMode, GitHubRelease.is_newer_than,
      WatchError.invalid_input, WatchError.mk_new, WatchError.in_op]

/-- With no stored fingerprint the comparison step always proceeds. -/
theorem proceeds_none (r : GitHubRelease) : proceedsPastComparison r none = true := rfl

/-- A mode-mismatched stored fingerprint also proceeds (self-heal). -/
theorem proceeds_modeMismatch (r l : GitHubRelease)
    (h : r.timestamp.sameMode l.timestamp = false) :
    proceedsPastComparison r (some l) = true := by
  obtain ⟨e, he, -⟩ := is_newer_than_modeMismatch r l h
  simp [proceedsPastComparison, he]

/-- A same-mode stored fingerprint proceeds exactly on strict increase. -/
theorem proceeds_sameMode (r l : GitHubRelease)
    (h : r.timestamp.sameMode l.timestamp = true) :
    proceedsPastComparison r (some l) =
      decide (l.timestamp.instant < r.timestamp.instant) := by
  simp [proceedsPastComparison, is_newer_than_sameMode r l h]

/-- The flow on a gateway fetch failure: store-wrapped error, no call. -/
theorem perform_check_flow_fetch_error (env : Env) (io : CheckWire)
    (store : MonitorStore) (config : ProjectConfig) (e : WatchError)
    (hfetch : monitorFetch io config = .error e) :
    perform_check_flow env io store config =
      { result := .error (WatchError.store_err ("GitHub API: " ++ e.display))
        store := store, dispatch_calls := [] } := by
  simp [perform_check_flow, hfetch]

/-- The flow when the comparison says not newer: success, no call. -/
theorem perform_check_flow_no_dispatch (env : Env) (io : CheckWire)
    (store : MonitorStore) (config : ProjectConfig) (r : GitHubRelease)
    (hfetch : monitorFetch io config = .ok r)
    (hstay : proceedsPastComparison r store.version = false) :
    perform_check_flow env io store config =
      { result := .ok (), store := store, dispatch_calls := [] } := by
  simp [perform_check_flow, hfetch, hstay]

/-- The flow when the dispatch secret key does not resolve: the
`Secret missing` store error, no call. -/
theorem perform_check_flow_secret_missing (env : Env) (io : CheckWire)
    (store : MonitorStore) (config : ProjectConfig) (r : GitHubRelease)
    (hfetch : monitorFetch io config = .ok r)
    (hgo : proceedsPastComparison r store.version = true)
    (hpat : env.secrets (monitorPatKey env config) = none) :
    perform_check_flow env io store config =
      { result := .error (WatchError.store_err
          ("Secret \x27" ++ monitorPatKey env config ++ "\x27 missing"))
        store := store, dispatch_calls := [] } := by
  simp [perform_check_flow, hfetch, hgo, hpat]

/-- The flow when it reaches the dispatch step: exactly one call, carrying
the resolved token and the fetched tag. -/
theorem perform_check_flow_dispatch_attempt (env : Env) (io : CheckWire)
    (store : MonitorStore) (config : ProjectConfig) (r : GitHubRelease) (pat : String)
    (hfetch : monitorFetch io config = .ok r)
    (hgo : proceedsPastComparison r store.version = true)
    (hpat : env.secrets (monitorPatKey env config) = some pat) :
    (perform_check_flow env io store config).dispatch_calls =
      [{ owner := config.request.base_config.my_owner
         repo := config.request.base_config.my_repo
         token := pat, event_type := "upstream_update", tag := r.tag_name }] := by
  simp only [perform_check_flow, hfetch, hgo, hpat, if_true]
  cases DispatchEvent.send (config.request.base_config.my_owner ++ "/" ++
      config.request.base_config.my_repo) io.dispatch_response <;> rfl

/-- `DispatchEvent::send` succeeds exactly on a delivered 204. -/
theorem dispatch_send_ok_iff (owner_repo : String) (resp : Except WatchError Nat) :
    DispatchEvent.send owner_repo resp = .ok () ↔ resp = .ok 204 := by
  rcases resp with e | s
  · simp [DispatchEvent.send]
  · by_cases h : s = 204 <;> simp [DispatchEvent.send, h]

/-- The flow when the dispatch send fails: store-wrapped error, the state
untouched, the single attempted call on record. -/
theorem dispatch_leaf_error (env : Env) (io : CheckWire) (store : MonitorStore)
    (config : ProjectConfig) (r : GitHubRelease) (pat : String) (e : WatchError)
    (hfetch : monitorFetch io config = .ok r)
    (hgo : proceedsPastComparison r store.version = true)
    (hpat : env.secrets (monitorPatKey env config) = some pat)
    (hsend : DispatchEvent.send (config.request.base_config.my_owner ++ "/" ++
      config.request.base_config.my_repo) io.dispatch_response = .error e) :
    perform_check_flow env io store config =
      { result := .error (WatchError.store_err ("Dispatch: " ++ e.display))
        store := store
        dispatch_calls := [{ owner := config.request.base_config.my_owner
                             repo := config.request.base_config.my_repo
                             token := pat, event_type := "upstream_update"
                             tag := r.tag_name }] } := by
  simp [perform_check_flow, hfetch, hgo, hpat, hsend]

/-- The flow when the dispatch send succeeds: success, the fetched release
persisted as the new fingerprint, the single call on record. -/
theorem dispatch_leaf_success (env : Env) (io : CheckWire) (store : MonitorStore)
    (config : ProjectConfig) (r : GitHubRelease) (pat : String)
    (hfetch : monitorFetch io config = .ok r)
    (hgo : proceedsPastComparison r store.version = true)
    (hpat : env.secrets (monitorPatKey env config) = some pat)
    (hsend : DispatchEvent.send (config.request.base_config.my_owner ++ "/" ++
      config.request.base_config.my_repo) io.dispatch_response = .ok ()) :
    perform_check_flow env io store config =
      { result := .ok ()
        store := { store with version := some r }
        dispatch_calls := [{ owner := config.request.base_config.my_owner
                             repo := config.request.base_config.my_repo
                             token := pat, event_type := "upstream_update"
                             tag := r.tag_name }] } := by
  simp [perform_check_flow, hfetch, hgo, hpat, hsend]

/-- Every run either leaves the stored fingerprint untouched, or it
succeeded: the dispatch was delivered with 204 and the fetched release is
the new fingerprint. -/
theorem version_cases (env : Env) (io : CheckWire) (store : MonitorStore)
    (config : ProjectConfig) :
    (perform_check_flow env io store config).store.version = store.version ∨
    (io.dispatch_response = .ok 204 ∧
      (perform_check_flow env io store config).result = .ok () ∧
      ∃ r, monitorFetch io config = .ok r ∧
        (perform_check_flow env io store config).store.version = some r) := by
  cases hf : monitorFetch io config with
  | error e => rw [perform_check_flow_fetch_error env io store config e hf]; left; rfl
  | ok r =>
    by_cases hgo : proceedsPastComparison r store.version = true
    · cases hs : env.secrets (monitorPatKey env config) with
      | none =>
        rw [perform_check_flow_secret_missing env io store config r hf hgo hs]; left; rfl
      | some pat =>
        cases hd : DispatchEvent.send (config.request.base_config.my_owner ++ "/" ++
            config.request.base_config.my_repo) io.dispatch_response with
        | error e =>
          rw [dispatch_leaf_error env io store config r pat e hf hgo hs hd]; left; rfl
        | ok u =>
          cases u
          rw [dispatch_leaf_success env io store config r pat hf hgo hs hd]
          right
          exact ⟨(dispatch_send_ok_iff _ _).mp hd, rfl, r, rfl, rfl⟩
    · rw [perform_check_flow_no_dispatch env io store config r hf (by simpa using hgo)]
      left; rfl

/-- Unfolding of the registry collection over one more key. -/
theorem registry_list_cons (a : String) (t : List String)
    (f : String → Except WatchError (Option ProjectConfig)) :
    ProjectRegistryLogic.list (a :: t) f =
      (match f a with
       | .ok (some c) => c :: ProjectRegistryLogic.list t f
       | _ => ProjectRegistryLogic.list t f) := by
  simp only [ProjectRegistryLogic.list, List.map_cons, List.filterMap_cons]
  rcases f a with e | oc
  · rfl
  · rcases oc with _ | c <;> rfl

/-- When every key answers with a config, nothing is dropped. -/
theorem registry_list_all_ok (t : List String)
    (f : String → Except WatchError (Option ProjectConfig))
    (h : ∀ k ∈ t, ∃ c, f k = .ok (some c)) :
    (ProjectRegistryLogic.list t f).length = t.length := by
  induction t with
  | nil => rfl
  | cons a t ih =>
    obtain ⟨c, hc⟩ := h a (List.mem_cons_self a t)
    rw [registry_list_cons, hc]
    simp [ih (fun k hk => h k (List.mem_cons_of_mem a hk))]

-- =========================================================
-- Claim theorems
-- =========================================================

/-- C8: over a key set in which exactly one key fails `GetConfig` and
every other key answers with a config, `list` returns the other keys'
configs - the collected list has length N-1 and the operation itself
succeeds (the failure is swallowed by the collection, never aborting the
aggregate). -/
theorem C8_list_single_failure (keys : List String)
    (f : String → Except WatchError (Option ProjectConfig)) (k0 : String)
    (hcount : keys.count k0 = 1)
    (hfail : ∃ e, f k0 = .error e)
    (hok : ∀ k ∈ keys, k ≠ k0 → ∃ c, f k = .ok (some c)) :
    (ProjectRegistryLogic.list keys f).length = keys.length - 1 := by
  induction keys with
  | nil => simp at hcount
  | cons a t ih =>
    by_cases ha : a = k0
    · subst ha
      have hzero : t.count a = 0 := by
        have h2 : t.count a + 1 = 1 := by simpa [List.count_cons_self] using hcount
        omega
      obtain ⟨e, he⟩ := hfail
      rw [registry_list_cons, he]
      have hall : ∀ k ∈ t, ∃ c, f k = .ok (some c) := by
        intro k hk
        refine hok k (List.mem_cons_of_mem a hk) ?_
        intro heq
        subst heq
        rw [List.count_eq_zero] at hzero
        exact hzero hk
      simp [registry_list_all_ok t f hall]
    · have hcount2 : t.count k0 = 1 := by
        have h2 := hcount
        rw [List.count_cons] at h2
        simpa [ha] using h2
      obtain ⟨c, hc⟩ := hok a (List.mem_cons_self a t) ha
      rw [registry_list_cons, hc]
      have hlen := ih hcount2 (fun k hk hne => hok k (List.mem_cons_of_mem a hk) hne)
      have hmem : k0 ∈ t := by
        by_contra hmem
        rw [List.count_eq_zero.mpr hmem] at hcount2
        exact absurd hcount2 (by decide)
      have hpos : 0 < t.length := List.length_pos.mpr (List.ne_nil_of_mem hmem)
      simp only [List.length_cons, hlen]
      omega

/-- C8 witness: three registered keys of which `k2` fails yield a
collected list of two configs. -/
theorem C8_list_single_failure_witness :
    List.count "k2" ["k1", "k2", "k3"] = 1 ∧
    getConfigW "k2" = .error (WatchError.store_err "unreachable actor") ∧
    (ProjectRegistryLogic.list ["k1", "k2", "k3"] getConfigW).length = 2 := by
  refine ⟨by decide, rfl, ?_⟩
  have hok : ∀ k ∈ ["k1", "k2", "k3"], k ≠ "k2" →
      ∃ c, getConfigW k = .ok (some c) := by
    intro k hk hne
    simp only [List.mem_cons, List.not_mem_nil, or_false] at hk
    rcases hk with rfl | rfl | rfl
    · exact ⟨cfgW, rfl⟩
    · exact absurd rfl hne
    · exact ⟨cfgW, rfl⟩
  exact C8_list_single_failure ["k1", "k2", "k3"] getConfigW "k2" (by decide)
    ⟨WatchError.store_err "unreachable actor", rfl⟩ hok

/-- C2 counterexample: a monitor-actor run whose fetched release (HTTP
200) lacks the `published_at` field selected by the project's comparison
mode returns an error and is not the successful skipped no-op the claim
requires. -/
theorem C2_counterexample :
    ioMissingW.fetch_response = Except.ok { status := 200, body := noPublishedBody } ∧
    noPublishedBody.published_at = JsonTime.missing ∧
    cfgW.request.comparison_mode = ComparisonMode.publishedAt ∧
    (∃ e, (perform_check_flow envW ioMissingW storeNoVersionW cfgW).result = .error e) ∧
    (perform_check_flow envW ioMissingW storeNoVersionW cfgW).dispatch_calls = [] :=
  ⟨rfl, rfl, rfl, ⟨_, rfl⟩, rfl⟩

/-- C2 (amended): missing timestamp field.  In the batch-runner path a
release lacking the mode's timestamp field yields the successful
`Skipped` no-op: no dispatch call and an unchanged repository.  In the
monitor-actor path the gateway rejects such a release, so the check
returns an error (a gateway `ExternalApi` failure re-wrapped as a Store
error), makes no dispatch call and leaves the actor state unchanged. -/
theorem C2_missing_timestamp :
    (∀ (resolver : String → Option String) (global : String) (io : Batch.CheckWire)
        (repo : Batch.RepoState) (config : Batch.ProjectConfig)
        (release : Batch.GitHubRelease),
      io.fetch_response = .ok release →
      release.get_comparison_timestamp config.base.comparison_mode = none →
      Batch.check_project resolver global io repo config =
        { result := .ok ("Skipped " ++ config.base.upstream_owner ++ "/" ++
            config.base.upstream_repo ++ " (No timestamp)")
          repo := repo, dispatch_calls := [] }) ∧
    (∀ (env : Env) (io : CheckWire) (store : MonitorStore) (config : ProjectConfig)
        (resp : FetchResponse),
      io.fetch_response = .ok resp → resp.status = 200 →
      resp.body.timeField config.request.comparison_mode = JsonTime.missing →
      (∃ e, (perform_check_flow env io store config).result = .error e ∧
        e.status = WatchErrorStatus.storeStatus) ∧
      (perform_check_flow env io store config).store = store ∧
      (perform_check_flow env io store config).dispatch_calls = []) := by
  constructor
  · intro resolver global io repo config release hresp hts
    simp [Batch.check_project, hresp, hts]
  · intro env io store config resp hresp hstatus hfield
    have hfe : ∃ e, monitorFetch io config = .error e := by
      simp only [monitorFetch, GitHubGateway.fetch_latest_release, hresp, hstatus]
      simp only [ne_eq, not_true_eq_false, if_false]
      cases htag : resp.body.tag_name with
      | none => exact ⟨_, rfl⟩
      | some tag =>
        cases hmode : config.request.comparison_mode with
        | publishedAt =>
          have hp : resp.body.published_at = JsonTime.missing := by
            simpa [ReleaseJson.timeField, hmode] using hfield
          rw [hp]
          exact ⟨_, rfl⟩
        | updatedAt =>
          have hp : resp.body.updated_at = JsonTime.missing := by
            simpa [ReleaseJson.timeField, hmode] using hfield
          rw [hp]
          exact ⟨_, rfl⟩
    obtain ⟨e, he⟩ := hfe
    rw [perform_check_flow_fetch_error env io store config e he]
    exact ⟨⟨_, rfl, rfl⟩, rfl, rfl⟩

/-- C2 witness: the batch run fetching a release with no timestamps is the
skipped success; the monitor run fetching `noPublishedBody` errors with a
Store-classified failure and no dispatch. -/
theorem C2_missing_timestamp_witness :
    Batch.check_project bresolverNoneW "global_tok" bioNoTsW brepoEmptyW bcfgW =
      { result := .ok "Skipped owner/repo (No timestamp)"
        repo := brepoEmptyW, dispatch_calls := [] } ∧
    (∃ e, (perform_check_flow envW ioMissingW storeNoVersionW cfgW).result = .error e ∧
      e.status = WatchErrorStatus.storeStatus) ∧
    (perform_check_flow envW ioMissingW storeNoVersionW cfgW).dispatch_calls = [] := by
  refine ⟨?_, ?_, ?_⟩
  · exact C2_missing_timestamp.1 bresolverNoneW "global_tok" bioNoTsW brepoEmptyW bcfgW
      brelNoTsW rfl rfl
  · exact (C2_missing_timestamp.2 envW ioMissingW storeNoVersionW cfgW
      { status := 200, body := noPublishedBody } rfl rfl rfl).1
  · exact (C2_missing_timestamp.2 envW ioMissingW storeNoVersionW cfgW
      { status := 200, body := noPublishedBody } rfl rfl rfl).2.2

/-- C3 counterexample: a batch run whose stored timestamp (2023-02-01) is
strictly greater than the remote one (2023-01-01) under the same
comparison mode still makes a dispatch call, because the batch path only
tests the two strings for inequality.  The claim requires no dispatch
when the stored timestamp is greater than or equal to the remote one. -/
theorem C3_counterexample :
    brelW.get_comparison_timestamp bcfgW.base.comparison_mode =
      some "2023-01-01T00:00:00Z" ∧
    brepoNewerW.version_state bcfgW.version_store_key = some "2023-02-01T00:00:00Z" ∧
    "2023-01-01T00:00:00Z".data < "2023-02-01T00:00:00Z".data ∧
    (Batch.check_project bresolverNoneW "global_tok" bioW brepoNewerW
      bcfgW).dispatch_calls.length = 1 :=
  ⟨rfl, rfl, by decide, rfl⟩

/-- C3 (amended): dispatch condition.  Monitor-actor path: with no stored
fingerprint the run makes exactly one dispatch call carrying the new tag;
with a same-mode stored fingerprint whose instant is at least the remote
one the run succeeds with no dispatch call; with a same-mode stored
fingerprint strictly older than the remote one the run makes exactly one
dispatch call carrying the new tag.  Batch path: the dispatch call is
made if and only if the stored timestamp string differs from the remote
one - equality is the `No change` no-op, while any difference (including
a strictly older remote) produces exactly one dispatch call with the new
tag. -/
theorem C3_dispatch_condition :
    (∀ (env : Env) (io : CheckWire) (store : MonitorStore) (config : ProjectConfig)
        (r : GitHubRelease) (pat : String),
      monitorFetch io config = .ok r → store.version = none →
      env.secrets (monitorPatKey env config) = some pat →
      (perform_check_flow env io store config).dispatch_calls =
        [{ owner := config.request.base_config.my_owner
           repo := config.request.base_config.my_repo
           token := pat, event_type := "upstream_update", tag := r.tag_name }]) ∧
    (∀ (env : Env) (io : CheckWire) (store : MonitorStore) (config : ProjectConfig)
        (r l : GitHubRelease),
      monitorFetch io config = .ok r → store.version = some l →
      r.timestamp.sameMode l.timestamp = true →
      r.timestamp.instant ≤ l.timestamp.instant →
      perform_check_flow env io store config =
        { result := .ok (), store := store, dispatch_calls := [] }) ∧
    (∀ (env : Env) (io : CheckWire) (store : MonitorStore) (config : ProjectConfig)
        (r l : GitHubRelease) (pat : String),
      monitorFetch io config = .ok r → store.version = some l →
      r.timestamp.sameMode l.timestamp = true →
      l.timestamp.instant < r.timestamp.instant →
      env.secrets (monitorPatKey env config) = some pat →
      (perform_check_flow env io store config).dispatch_calls =
        [{ owner := config.request.base_config.my_owner
           repo := config.request.base_config.my_repo
           token := pat, event_type := "upstream_update", tag := r.tag_name }]) ∧
    (∀ (resolver : String → Option String) (global : String) (io : Batch.CheckWire)
        (repo : Batch.RepoState) (config : Batch.ProjectConfig)
        (release : Batch.GitHubRelease) (t : String),
      io.fetch_response = .ok release →
      release.get_comparison_timestamp config.base.comparison_mode = some t →
      (repo.version_state config.version_store_key = some t →
        Batch.check_project resolver global io repo config =
          { result := .ok ("No change for " ++ config.base.upstream_owner ++ "/" ++
              config.base.upstream_repo)
            repo := repo, dispatch_calls := [] }) ∧
      (repo.version_state config.version_store_key ≠ some t →
        ∃ call, (Batch.check_project resolver global io repo config).dispatch_calls =
          [call] ∧ call.version = release.tag_name)) := by
  refine ⟨?_, ?_, ?_, ?_⟩
  · intro env io store config r pat hfetch hver hpat
    exact perform_check_flow_dispatch_attempt env io store config r pat hfetch
      (by rw [hver]; exact proceeds_none r) hpat
  · intro env io store config r l hfetch hver hmode hle
    refine perform_check_flow_no_dispatch env io store config r hfetch ?_
    rw [hver, proceeds_sameMode r l hmode]
    simpa using hle
  · intro env io store config r l pat hfetch hver hmode hlt hpat
    refine perform_check_flow_dispatch_attempt env io store config r pat hfetch ?_ hpat
    rw [hver, proceeds_sameMode r l hmode]
    simpa using hlt
  · intro resolver global io repo config release t hresp hts
    constructor
    · intro hsame
      simp [Batch.check_project, hresp, hts, hsame]
    · intro hdiff
      simp only [Batch.check_project, hresp, hts]
      rw [if_neg hdiff]
      cases io.dispatch_response <;> exact ⟨_, rfl, rfl⟩

/-- C3 witness: with no stored fingerprint the monitor run dispatches once
with tag `v2`; with a stored published-mode fingerprint at instant 300
against a remote at 200 it succeeds without dispatching; the batch run
whose stored string equals the remote one is the `No change` no-op. -/
theorem C3_dispatch_condition_witness :
    (perform_check_flow envW ioOkW storeNoVersionW cfgW).dispatch_calls =
      [{ owner := "my_owner", repo := "my_repo", token := "global_pat"
         event_type := "upstream_update", tag := "v2" }] ∧
    perform_check_flow envW ioOkW storeNewerVersionW cfgW =
      { result := .ok (), store := storeNewerVersionW, dispatch_calls := [] } ∧
    Batch.check_project bresolverNoneW "global_tok" bioW brepoSameW bcfgW =
      { result := .ok "No change for owner/repo"
        repo := brepoSameW, dispatch_calls := [] } := by
  refine ⟨?_, ?_, ?_⟩
  · exact C3_dispatch_condition.1 envW ioOkW storeNoVersionW cfgW
      (GitHubRelease.mk "v2" (ReleaseTimestamp.published 200)) "global_pat" rfl rfl rfl
  · exact C3_dispatch_condition.2.1 envW ioOkW storeNewerVersionW cfgW
      (GitHubRelease.mk "v2" (ReleaseTimestamp.published 200))
      (GitHubRelease.mk "v3" (ReleaseTimestamp.published 300)) rfl rfl rfl (by decide)
  · exact (C3_dispatch_condition.2.2.2 bresolverNoneW "global_tok" bioW brepoSameW bcfgW
      brelW "2023-01-01T00:00:00Z" rfl rfl).1 rfl

/-- C5: release-freshness comparison.  For two fingerprints with the same
mode tag, `is_newer_than` answers `Ok` of "remote instant strictly greater";
for different mode tags, the check flow treats the stored fingerprint as
out-of-date (self-heal): its result and its dispatch calls coincide with
those of the run that has no stored fingerprint at all, so the mismatch
never surfaces as an error blocking the dispatch step. -/
theorem C5_release_comparison :
    (∀ a b : GitHubRelease, a.timestamp.sameMode b.timestamp = true →
      a.is_newer_than b = .ok (decide (b.timestamp.instant < a.timestamp.instant))) ∧
    (∀ (env : Env) (io : CheckWire) (store : MonitorStore) (config : ProjectConfig)
        (r l : GitHubRelease),
      store.version = some l → monitorFetch io config = .ok r →
      r.timestamp.sameMode l.timestamp = false →
      (perform_check_flow env io store config).result =
        (perform_check_flow env io { store with version := none } config).result ∧
      (perform_check_flow env io store config).dispatch_calls =
        (perform_check_flow env io { store with version := none } config).dispatch_calls) := by
  refine ⟨is_newer_than_sameMode, ?_⟩
  intro env io store config r l hver hfetch hmode
  have hgo : proceedsPastComparison r store.version = true := by
    rw [hver]; exact proceeds_modeMismatch r l hmode
  simp only [perform_check_flow, hfetch, hgo, proceeds_none, if_true]
  cases env.secrets (monitorPatKey env config) <;>
    [skip;
     cases DispatchEvent.send (config.request.base_config.my_owner ++ "/" ++
       config.request.base_config.my_repo) io.dispatch_response] <;>
    exact ⟨rfl, rfl⟩

/-- C5 witness: same-mode instants 200 over 100 compare as newer, and a
run against a stored `updated`-mode fingerprint behaves exactly like the
run with no fingerprint. -/
theorem C5_release_comparison_witness :
    (GitHubRelease.mk "v2" (ReleaseTimestamp.published 200)).is_newer_than
        (GitHubRelease.mk "v1" (ReleaseTimestamp.published 100)) = .ok true ∧
    storeMismatchW.version = some (GitHubRelease.mk "v1" (ReleaseTimestamp.updated 100)) ∧
    (perform_check_flow envW ioOkW storeMismatchW cfgW).result =
      (perform_check_flow envW ioOkW { storeMismatchW with version := none } cfgW).result := by
  refine ⟨?_, rfl, ?_⟩
  · have h := C5_release_comparison.1 (GitHubRelease.mk "v2" (ReleaseTimestamp.published 200))
      (GitHubRelease.mk "v1" (ReleaseTimestamp.published 100)) rfl
    simpa using h
  · exact (C5_release_comparison.2 envW ioOkW storeMismatchW cfgW
      (GitHubRelease.mk "v2" (ReleaseTimestamp.published 200))
      (GitHubRelease.mk "v1" (ReleaseTimestamp.updated 100)) rfl rfl rfl).1

/-- C1 counterexample: the monitor-actor check flow does not fall back.
The project names secret `CUSTOM`; the environment cannot resolve it but
does hold the global token under the default name `MY_GITHUB_PAT`; the
upstream fetch succeeds and the release is new.  The claim requires the
run to fall back to the global token and proceed; instead it fails with
the `Secret missing` store error and makes no dispatch call. -/
theorem C1_counterexample :
    cfgSecretW.request.dispatch_token_secret = some "CUSTOM" ∧
    envW.secrets "CUSTOM" = none ∧
    envW.secrets "MY_GITHUB_PAT" = some "global_pat" ∧
    (perform_check_flow envW ioOkW storeSecretW cfgSecretW).result =
      .error (WatchError.store_err "Secret \x27CUSTOM\x27 missing") ∧
    (perform_check_flow envW ioOkW storeSecretW cfgSecretW).dispatch_calls = [] :=
  ⟨rfl, rfl, rfl, rfl, rfl⟩

/-- C1 (amended): dispatch-token resolution.  The batch runner follows the
spec rule: every dispatch call carries the resolved named secret, the
global token when the name does not resolve, and the global token when no
name is given.  The monitor actor does not fall back: every dispatch call
carries exactly the resolved value of the secret key it computed (the
project's named secret, else the `PAT_TOKEN_NAME`-named default,
`MY_GITHUB_PAT`), and when the project names a secret that does not
resolve, the run makes no dispatch call at all (it fails with a Store
error instead of using the global token). -/
theorem C1_token_resolution :
    (∀ (resolver : String → Option String) (global : String) (io : Batch.CheckWire)
        (repo : Batch.RepoState) (config : Batch.ProjectConfig) (call : Batch.DispatchCall),
      call ∈ (Batch.check_project resolver global io repo config).dispatch_calls →
      call.token = (match config.base.dispatch_token_secret with
        | some name => (resolver name).getD global
        | none => global)) ∧
    (∀ (env : Env) (io : CheckWire) (store : MonitorStore) (config : ProjectConfig)
        (call : DispatchCall),
      call ∈ (perform_check_flow env io store config).dispatch_calls →
      env.secrets (monitorPatKey env config) = some call.token) ∧
    (∀ (env : Env) (io : CheckWire) (store : MonitorStore) (config : ProjectConfig)
        (name : String),
      config.request.dispatch_token_secret = some name → env.secrets name = none →
      (perform_check_flow env io store config).dispatch_calls = []) := by
  refine ⟨?_, ?_, ?_⟩
  · intro resolver global io repo config call hmem
    simp only [Batch.check_project] at hmem
    split at hmem
    · simp at hmem
    · split at hmem
      · simp at hmem
      · split at hmem
        · simp at hmem
        · split at hmem <;>
          · simp at hmem
            subst hmem
            cases hsec : config.base.dispatch_token_secret with
            | none => simp
            | some name => cases hr : resolver name <;> simp [hr]
  · intro env io store config call hmem
    simp only [perform_check_flow] at hmem
    split at hmem
    · simp at hmem
    · split at hmem
      · split at hmem
        · simp at hmem
        · rename_i pat hpat
          split at hmem <;> (simp at hmem; subst hmem; exact hpat)
      · simp at hmem
  · intro env io store config name hname hnone
    have hkey : env.secrets (monitorPatKey env config) = none := by
      simp [monitorPatKey, hname, hnone]
    simp only [perform_check_flow]
    split
    · rfl
    · split
      · simp [hkey]
      · rfl

/-- C1 witness: the batch run whose named secret `CUSTOM` is unresolvable
issues its single dispatch call with the global token; the monitor run
with no named secret uses the resolved `MY_GITHUB_PAT` value; the monitor
run naming the unresolvable `CUSTOM` issues no dispatch call. -/
theorem C1_token_resolution_witness :
    (Batch.DispatchCall.mk "my_owner" "my_repo" "global_tok" "v2" ∈
        (Batch.check_project bresolverNoneW "global_tok" bioW brepoNewerW
          bcfgW).dispatch_calls ∧
      (Batch.DispatchCall.mk "my_owner" "my_repo" "global_tok" "v2").token = "global_tok") ∧
    (DispatchCall.mk "my_owner" "my_repo" "global_pat" "upstream_update" "v2" ∈
        (perform_check_flow envW ioOkW storeNoVersionW cfgW).dispatch_calls ∧
      envW.secrets (monitorPatKey envW cfgW) = some "global_pat") ∧
    (cfgSecretW.request.dispatch_token_secret = some "CUSTOM" ∧
      envW.secrets "CUSTOM" = none ∧
      (perform_check_flow envW ioOkW storeSecretW cfgSecretW).dispatch_calls = []) := by
  have hmem1 : Batch.DispatchCall.mk "my_owner" "my_repo" "global_tok" "v2" ∈
      (Batch.check_project bresolverNoneW "global_tok" bioW brepoNewerW
        bcfgW).dispatch_calls := by
    rw [show (Batch.check_project bresolverNoneW "global_tok" bioW brepoNewerW
        bcfgW).dispatch_calls =
      [Batch.DispatchCall.mk "my_owner" "my_repo" "global_tok" "v2"] from rfl]
    exact List.mem_singleton.mpr rfl
  have hmem2 : DispatchCall.mk "my_owner" "my_repo" "global_pat" "upstream_update" "v2" ∈
      (perform_check_flow envW ioOkW storeNoVersionW cfgW).dispatch_calls := by
    rw [show (perform_check_flow envW ioOkW storeNoVersionW cfgW).dispatch_calls =
      [DispatchCall.mk "my_owner" "my_repo" "global_pat" "upstream_update" "v2"] from rfl]
    exact List.mem_singleton.mpr rfl
  refine ⟨⟨hmem1, ?_⟩, ⟨hmem2, ?_⟩, rfl, rfl, ?_⟩
  · exact C1_token_resolution.1 bresolverNoneW "global_tok" bioW brepoNewerW bcfgW _ hmem1
  · exact C1_token_resolution.2.1 envW ioOkW storeNoVersionW cfgW _ hmem2
  · exact C1_token_resolution.2.2 envW ioOkW storeSecretW cfgSecretW "CUSTOM" rfl rfl

/-- C9: the outbound send retries a rate-limited 403 (header value "0")
exactly once after the fixed 120 second cooldown, returns the retry's
response as-is, returns any other first response as-is, and never makes
more than two attempts. -/
theorem C9_rate_limit_retry (responses : Nat → WireResponse) :
    ((responses 0).status = 403 ∧ (responses 0).rate_limit_remaining = some "0" →
      WorkerHttpClient.send responses = (2, RATE_LIMIT_WAIT_SECONDS, responses 1)) ∧
    (¬ ((responses 0).status = 403 ∧ (responses 0).rate_limit_remaining = some "0") →
      WorkerHttpClient.send responses = (1, 0, responses 0)) ∧
    (WorkerHttpClient.send responses).1 ≤ 2 := by
  by_cases h : (responses 0).status = 403 ∧ (responses 0).rate_limit_remaining = some "0" <;>
    simp [WorkerHttpClient.send, MAX_RETRIES, send_aux, h]

/-- C9 witness: a rate-limited first response followed by a 200 yields two
attempts, a 120 second wait, and the second response. -/
theorem C9_rate_limit_retry_witness :
    (respSeqW 0).status = 403 ∧ (respSeqW 0).rate_limit_remaining = some "0" ∧
    WorkerHttpClient.send respSeqW = (2, 120, respSeqW 1) := by
  refine ⟨rfl, rfl, ?_⟩
  exact (C9_rate_limit_retry respSeqW).1 ⟨rfl, rfl⟩

/-- C10: the unique-key derivation is not injective.  Two requests whose
identity fields differ as tuples are both accepted by `create_project`
against an empty registry, yet produce the same unique key
`a/b->c/d/e` - the identity under which registry membership, actor
addressing and version state are keyed. -/
theorem C10_unique_key_collision :
    ∃ r1 r2 : CreateProjectRequest,
      r1.base_config ≠ r2.base_config ∧
      AdminLogic.create_project (fun _ => false) r1 = .ok (ProjectConfig.new r1) ∧
      AdminLogic.create_project (fun _ => false) r2 = .ok (ProjectConfig.new r2) ∧
      (ProjectConfig.new r1).unique_key = (ProjectConfig.new r2).unique_key ∧
      (ProjectConfig.new r1).unique_key = "a/b->c/d/e" := by
  refine ⟨{ reqW with base_config :=
            { upstream_owner := "a", upstream_repo := "b",
              my_owner := "c", my_repo := "d/e" } },
          { reqW with base_config :=
            { upstream_owner := "a", upstream_repo := "b",
              my_owner := "c/d", my_repo := "e" } },
          ?_, rfl, rfl, rfl, rfl⟩
  intro h
  exact absurd (congrArg BaseConfig.my_owner h) (by decide)

/-- C4: evaluation at the failing inputs.  The gateway classifies a non-200
releases fetch and a non-204 dispatch response as `ExternalApi` (502), as
the claim and the error taxonomy require - but `perform_check_flow`
re-wraps both with `AppError::store`, so the error actually returned to
the caller of the check is Store-classified (500), not 502. -/
theorem C4_classification_divergence :
    (∃ e, GitHubGateway.fetch_latest_release ComparisonMode.publishedAt "owner/repo"
        (Except.ok { status := 404, body := goodBody }) = .error e ∧
      e.status = WatchErrorStatus.externalApi ∧ e.status.status_code = 502) ∧
    (∃ e, (perform_check_flow envW io404W storeNoVersionW cfgW).result = .error e ∧
      e.status = WatchErrorStatus.storeStatus ∧ e.status.status_code = 500) ∧
    (∃ e, DispatchEvent.send "my_owner/my_repo" (Except.ok 500) = .error e ∧
      e.status = WatchErrorStatus.externalApi ∧ e.status.status_code = 502) ∧
    (∃ e, (perform_check_flow envW ioBadDispatchW storeNoVersionW cfgW).result = .error e ∧
      e.status = WatchErrorStatus.storeStatus ∧ e.status.status_code = 500) :=
  ⟨⟨_, rfl, rfl, rfl⟩, ⟨_, rfl, rfl, rfl⟩, ⟨_, rfl, rfl, rfl⟩, ⟨_, rfl, rfl, rfl⟩⟩

/-- C6: every timer fire.  With no stored config, or while paused, the
pending alarm is deleted, nothing is scheduled, and the call succeeds.
Otherwise the check runs and - whether it succeeds or fails - the call
succeeds and exactly one new alarm is scheduled: `check_interval` after a
successful check, `retry_interval` after a failed one, with
`next_check_at = now + interval` persisted in the stored config. -/
theorem C6_on_alarm_reschedule (env : Env) (io : CheckWire) (now : Timestamp)
    (store : MonitorStore) :
    (store.config = none →
      on_alarm env io now store =
        { result := .ok (), store := { store with alarm := none }
          dispatch_calls := [] }) ∧
    (∀ cfg, store.config = some cfg → cfg.state.is_paused = true →
      on_alarm env io now store =
        { result := .ok (), store := { store with alarm := none }
          dispatch_calls := [] }) ∧
    (∀ cfg, store.config = some cfg → cfg.state.is_paused = false →
      (on_alarm env io now store).result = .ok () ∧
      ((perform_check_flow env io store cfg).result = .ok () →
        (on_alarm env io now store).store.alarm =
          some (cfg.request.time_config.check_interval * 1000) ∧
        (on_alarm env io now store).store.config =
          some { cfg with state := MonitorState.running (now + Int.ofNat cfg.request.time_config.check_interval) }) ∧
      (∀ e, (perform_check_flow env io store cfg).result = .error e →
        (on_alarm env io now store).store.alarm =
          some (cfg.request.time_config.retry_interval * 1000) ∧
        (on_alarm env io now store).store.config =
          some { cfg with state := MonitorState.running (now + Int.ofNat cfg.request.time_config.retry_interval) })) := by
  refine ⟨?_, ?_, ?_⟩
  · intro h
    simp [on_alarm, h]
  · intro cfg hc hp
    simp [on_alarm, hc, hp]
  · intro cfg hc hp
    cases hres : (perform_check_flow env io store cfg).result with
    | ok u =>
      cases u
      refine ⟨?_, fun _ => ⟨?_, ?_⟩, fun e he => absurd he (by simp)⟩ <;>
        simp [on_alarm, hc, hp, hres, MonitorState.mk_running]
    | error e =>
      refine ⟨?_, fun h => absurd h (by simp), fun e2 he2 => ⟨?_, ?_⟩⟩ <;>
        simp [on_alarm, hc, hp, hres, MonitorState.mk_running]

/-- C6 witness: a fire at `now = 50` on a running project with a
successful check schedules exactly one alarm of one hour and persists
`next_check_at = 3650`. -/
theorem C6_on_alarm_reschedule_witness :
    storeNoVersionW.config = some cfgW ∧ cfgW.state.is_paused = false ∧
    (perform_check_flow envW ioOkW storeNoVersionW cfgW).result = .ok () ∧
    (on_alarm envW ioOkW 50 storeNoVersionW).result = .ok () ∧
    (on_alarm envW ioOkW 50 storeNoVersionW).store.alarm = some 3600000 ∧
    (on_alarm envW ioOkW 50 storeNoVersionW).store.config =
      some { cfgW with state := MonitorState.running 3650 } := by
  have h := (C6_on_alarm_reschedule envW ioOkW 50 storeNoVersionW).2.2 cfgW rfl rfl
  have halarm := (h.2.1 rfl).1
  have hcfg := (h.2.1 rfl).2
  rw [show (50 : Timestamp) + Int.ofNat cfgW.request.time_config.check_interval =
    3650 from by decide] at hcfg
  exact ⟨rfl, rfl, rfl, h.1, halarm, hcfg⟩

/-- C7: the stored fingerprint is rewritten only by a successfully
dispatched run.  If the dispatch exchange was a transport error or any
status other than 204, the stored fingerprint is unchanged; conversely,
whenever the stored fingerprint changed, the dispatch was delivered with
204, the run succeeded, and the new fingerprint is the fetched release. -/
theorem C7_persist_after_dispatch (env : Env) (io : CheckWire) (store : MonitorStore)
    (config : ProjectConfig) :
    (((∃ e, io.dispatch_response = .error e) ∨
        (∃ s, io.dispatch_response = .ok s ∧ s ≠ 204)) →
      (perform_check_flow env io store config).store.version = store.version) ∧
    ((perform_check_flow env io store config).store.version ≠ store.version →
      io.dispatch_response = .ok 204 ∧
      (perform_check_flow env io store config).result = .ok () ∧
      ∃ r, monitorFetch io config = .ok r ∧
        (perform_check_flow env io store config).store.version = some r) := by
  constructor
  · intro h
    rcases version_cases env io store config with hsame | ⟨h204, -, -⟩
    · exact hsame
    · rcases h with ⟨e, he⟩ | ⟨s, hs, hne⟩
      · rw [he] at h204; cases h204
      · rw [hs] at h204; injection h204 with h204v; exact absurd h204v hne
  · intro hne
    rcases version_cases env io store config with hsame | hright
    · exact absurd hsame hne
    · exact hright

/-- C7 witness: a run whose dispatch is answered with 500 leaves the
previously stored fingerprint (`v1`, published 100) unchanged. -/
theorem C7_persist_after_dispatch_witness :
    (∃ s, ioBadDispatchW.dispatch_response = .ok s ∧ s ≠ 204) ∧
    (perform_check_flow envW ioBadDispatchW storeOldVersionW cfgW).store.version =
      storeOldVersionW.version := by
  refine ⟨⟨500, rfl, by decide⟩, ?_⟩
  exact (C7_persist_after_dispatch envW ioBadDispatchW storeOldVersionW cfgW).1
    (Or.inr ⟨500, rfl, by decide⟩)

end Verwatch
